import Mathlib

/-!
# Verification of the prvt key orchestrator (`cmd/zz-keys.go`)

Shallow embedding of the repository's key-management core: the `InfoFile`
metadata model, the orchestrator operations `NewInfoFile`, `AddKey`,
`GetMasterKey`, `UpgradeInfoFile` and their helpers, plus the sandboxed
(wasm) unlock request handler.

Byte strings (`[]byte` in Go) are `List Nat`. Go's `(errMessage string,
err error)` return convention is `String × Option String`, where the
`Option String` carries the text of the `errors.New` call (or of the
propagated error); `none` is Go's `nil` error.

The packages `infofile`, `keys` and `crypto` are imported by
`cmd/zz-keys.go` but their sources are not part of this repository
snapshot; they are modelled from the specification (sections 2, 3 and
4.3), as marked on each definition. Effectful primitives (interactive
prompt, random salt/key generation, locally-available asymmetric
material) are modelled by an explicit `World` value threaded through the
operations: queues supply the successive outcomes of the prompt and of
the random generators, and functions describe the asymmetric wrap/unwrap
capability available to the process.
-/

/-- Byte strings: Go `[]byte`. The empty list is Go's `nil` slice. -/
abbrev Bytes := List Nat

/-- Modelled from the spec (section 3, `KeyEntry`): a tagged variant, one of
`PassphraseEntry\x7bsalt, confirmation_hash, wrapped_master_key\x7d` or
`AsymmetricEntry\x7brecipient_id, wrapped_master_key\x7d`. The `infofile`
package that declares it is not in this snapshot. -/
inductive KeyEntry where
  | passphraseEntry (salt confirmationHash wrappedKey : Bytes)
  | asymmetricEntry (recipientId : String) (wrappedKey : Bytes)
deriving DecidableEq

/-- The `GPGKey` field read by `AddKey`'s duplicate scan (`zz-keys.go:163`):
the recipient id of an asymmetric entry, and the empty string on a
passphrase entry (Go's zero value for the unused struct field). -/
def KeyEntry.GPGKey : KeyEntry → String
  | .passphraseEntry _ _ _ => ""
  | .asymmetricEntry recipientId _ => recipientId

/-- Modelled from the spec (section 3, `InfoFile`): root metadata with the
format version, the ordered key-entry list, and the version-1 legacy
fields `Salt` / `ConfirmationHash` (the names `zz-keys.go` reads). The
`infofile` package declaring the struct is not in this snapshot; the spec
allows negative or unknown versions, so `Version` is an integer. -/
structure InfoFile where
  Version : Int
  Salt : Bytes
  ConfirmationHash : Bytes
  Keys : List KeyEntry
deriving DecidableEq

/-- Modelled from the spec (section 2): `generate_salt` and
`generate_master_key` can fail; the spec's other primitives below are
total. Results of a Go call carrying an `error`. -/
abbrev GoResult (α : Type) := Except String α

/-- The environment of effectful collaborators, threaded explicitly.
`promptQueue` holds the successive outcomes of the interactive
passphrase prompt; `saltQueue` and `keyQueue` the successive outputs of
the random salt / master-key generators (an exhausted queue is a
primitive failure); `gpgDecrypt` and `gpgEncrypt` are the
asymmetric-wrapping capability locally available to the process. -/
structure World where
  promptQueue : List (Except String String)
  saltQueue : List Bytes
  keyQueue : List Bytes
  gpgDecrypt : Bytes → Option Bytes
  gpgEncrypt : Bytes → String → Option Bytes

/-- PromptPassphrase (`zz-keys.go:33`): obtains a passphrase from the
interactive Factor Source, or the error that aborted it. Consumes one
entry of the world's prompt queue; an exhausted queue is a prompt
failure. -/
def PromptPassphrase (w : World) : Except String String × World :=
  match w.promptQueue with
  | [] => (.error "prompt unavailable", w)
  | r :: rest => (r, { w with promptQueue := rest })

namespace crypto

/-- Modelled from the spec (section 2, `generate_master_key`): draws the
next fresh master key, failing if the generator fails (queue exhausted).
The `crypto` package is not in this snapshot. -/
def NewKey (w : World) : GoResult Bytes × World :=
  match w.keyQueue with
  | [] => (.error "key generation failed", w)
  | k :: rest => (.ok k, { w with keyQueue := rest })

/-- Modelled from the spec (section 2, `generate_salt`): draws the next
fresh salt, failing if the generator fails (queue exhausted). -/
def NewSalt (w : World) : GoResult Bytes × World :=
  match w.saltQueue with
  | [] => (.error "salt generation failed", w)
  | s :: rest => (.ok s, { w with saltQueue := rest })

/-- Byte encoding of a passphrase string. -/
def strBytes (p : String) : Bytes := p.data.map Char.toNat

/-- Modelled from the spec (section 2, `derive_key`): deterministically
derives `(WrappingKey, ConfirmationHash)` from `(passphrase, salt)`. The
two outputs are tagged so they never coincide, and each determines the
`(passphrase, salt)` material that produced it for a fixed salt length,
as a key-derivation function does up to collisions. -/
def KeyFromPassphrase (passphrase : String) (salt : Bytes) : Bytes × Bytes :=
  (0 :: strBytes passphrase ++ salt, 1 :: salt ++ strBytes passphrase)

/-- Modelled from the spec (section 2, `wrap`): wraps a payload under a
wrapping key, reversibly by `UnwrapKey` under the same key. -/
def WrapKey (wrappingKey payload : Bytes) : Bytes :=
  wrappingKey ++ payload

/-- Modelled from the spec (section 2, `unwrap`): recovers the payload
from a blob wrapped under the same wrapping key, and fails on a blob not
produced under it. -/
def UnwrapKey (wrappingKey blob : Bytes) : Option Bytes :=
  if blob.take wrappingKey.length = wrappingKey then
    some (blob.drop wrappingKey.length)
  else
    none

/-- The spec's round-trip property (section 8): unwrapping with the
wrapping key recovers the wrapped payload. -/
theorem unwrap_wrap (wrappingKey payload : Bytes) :
    UnwrapKey wrappingKey (WrapKey wrappingKey payload) = some payload := by
  simp [UnwrapKey, WrapKey, List.take_left, List.drop_left]

end crypto

/-- Go's `subtle.ConstantTimeCompare`: 1 when the two byte strings have
equal length and contents, 0 otherwise. -/
def ConstantTimeCompare (x y : Bytes) : Nat :=
  if x = y then 1 else 0

/-- Go's `strings.ToLower` as used by `AddKey`'s case-insensitive
duplicate scan, read off as the code points of the lowered string. Go's
function is Unicode-aware; this model folds only ASCII (A-Z to a-z), so
it coincides with the source exactly on ASCII strings: for those,
equality of `toLowerCodes` is equality of the `strings.ToLower` images.
Equality of `toLowerCodes` implies equality under the Go function for
arbitrary strings (the two sides then differ only in A-Z/a-z positions),
but disequality of `toLowerCodes` matches the source only on ASCII
input, so statements about the not-a-duplicate branch are made over
ASCII recipient ids. -/
def toLowerCodes (s : String) : List Nat :=
  s.data.map fun c => if 65 ≤ c.toNat ∧ c.toNat ≤ 90 then c.toNat + 32 else c.toNat

/-- An ASCII string: every character is a 7-bit code point. On these,
`toLowerCodes` agrees with Go's Unicode-aware `strings.ToLower`. -/
abbrev isAsciiString (s : String) : Prop :=
  ∀ c ∈ s.data, c.toNat < 128

namespace infofile

/-- Modelled from the spec (section 4.1): a fresh `InfoFile` at the
current format version 3 with an empty key list and no legacy fields. -/
def New : InfoFile :=
  { Version := 3, Salt := [], ConfirmationHash := [], Keys := [] }

end infofile

/-- `info.AddPassphrase(salt, confirmationHash, wrappedKey)` — modelled
from the spec (sections 4.2 and 4.4): appends a `PassphraseEntry` to the
key list. The spec gives the append no failure mode. -/
def InfoFile.AddPassphrase (info : InfoFile)
    (salt confirmationHash wrappedKey : Bytes) : InfoFile :=
  { info with
    Keys := info.Keys ++ [.passphraseEntry salt confirmationHash wrappedKey] }

/-- `info.AddGPGWrappedKey(gpgKey, wrappedKey)` — modelled from the spec
(section 4.2): appends an `AsymmetricEntry` to the key list. -/
def InfoFile.AddGPGWrappedKey (info : InfoFile)
    (gpgKey : String) (wrappedKey : Bytes) : InfoFile :=
  { info with Keys := info.Keys ++ [.asymmetricEntry gpgKey wrappedKey] }

/-- Result shape of the `keys` package unlock helpers: Go's
`(masterKey []byte, keyId string, errMessage string, err error)`. -/
structure KeysResult where
  masterKey : Bytes
  keyId : String
  errMessage : String
  err : Option String
deriving DecidableEq

namespace keys

/-- Modelled from the spec (section 4.3 step 2), iterating the key list:
on a `PassphraseEntry`, derive the candidate wrapping key and hash from
the supplied passphrase and the entry's salt, compare the hash in
constant time, and on a match unwrap and return (the entry index serves
as the factor id); on a mismatch skip to the next entry. Asymmetric
entries are skipped. -/
def tryPassphraseEntries (passphrase : String) :
    List KeyEntry → Nat → KeysResult
  | [], _ =>
    ⟨[], "", "Cannot unlock the repository", some "Invalid passphrase"⟩
  | .asymmetricEntry _ _ :: rest, i =>
    tryPassphraseEntries passphrase rest (i + 1)
  | .passphraseEntry salt confirmationHash wrappedKey :: rest, i =>
    let d := crypto.KeyFromPassphrase passphrase salt
    if ConstantTimeCompare confirmationHash d.2 = 1 then
      match crypto.UnwrapKey d.1 wrappedKey with
      | some masterKey => ⟨masterKey, toString i, "", none⟩
      | none =>
        ⟨[], "", "Cannot unlock the repository", some "Invalid passphrase"⟩
    else
      tryPassphraseEntries passphrase rest (i + 1)

/-- `keys.GetMasterKeyWithPassphrase` — modelled from the spec (section
4.3 step 2): try every `PassphraseEntry` in list order against the
supplied passphrase; fail with `InvalidCredentials` when none matches.
The `keys` package is not in this snapshot. -/
def GetMasterKeyWithPassphrase (info : InfoFile) (passphrase : String) :
    KeysResult :=
  tryPassphraseEntries passphrase info.Keys 0

/-- Modelled from the spec (section 4.3 step 1), iterating the key list:
on an `AsymmetricEntry`, attempt the locally available asymmetric unwrap
on its wrapped blob; the first success wins and returns the entry's
recipient id as the factor id. Passphrase entries are skipped. -/
def tryAsymmetricEntries (w : World) : List KeyEntry → KeysResult
  | [] =>
    ⟨[], "", "Cannot unlock the repository", some "No GPG key unlocks this repository"⟩
  | .passphraseEntry _ _ _ :: rest => tryAsymmetricEntries w rest
  | .asymmetricEntry recipientId wrappedKey :: rest =>
    match w.gpgDecrypt wrappedKey with
    | some masterKey => ⟨masterKey, recipientId, "", none⟩
    | none => tryAsymmetricEntries w rest

/-- `keys.GetMasterKeyWithGPG` — modelled from the spec (section 4.3 step
1): try every `AsymmetricEntry` in list order with the locally available
asymmetric-unwrap capability; this path consumes no interactive input. -/
def GetMasterKeyWithGPG (info : InfoFile) (w : World) : KeysResult :=
  tryAsymmetricEntries w info.Keys

/-- `keys.GPGEncrypt` — modelled from the spec (section 2,
`asymmetric_wrap`): wraps the payload for the recipient, or fails. -/
def GPGEncrypt (w : World) (payload : Bytes) (gpgKey : String) :
    GoResult Bytes :=
  match w.gpgEncrypt payload gpgKey with
  | some wrapped => .ok wrapped
  | none => .error "GPG encryption failed"

end keys

/-- Result of an operation returning Go's `(errMessage string, err error)`
while (possibly) mutating the `*InfoFile` and consuming world effects:
the pair together with the info file and world after the call. -/
structure OpResult where
  errMessage : String
  err : Option String
  info : InfoFile
  world : World

/-- addKeyPassphrase (`zz-keys.go:174`): prompt for a passphrase, reject
with the duplicate error if it already unlocks the current info file,
otherwise generate a fresh salt, derive the wrapping key and confirmation
hash, wrap the master key and append the passphrase entry. -/
def addKeyPassphrase (info : InfoFile) (masterKey : Bytes) (w : World) :
    OpResult :=
  match PromptPassphrase w with
  | (.error e, w) => ⟨"Error getting passphrase", some e, info, w⟩
  | (.ok passphrase, w) =>
    if (keys.GetMasterKeyWithPassphrase info passphrase).err = none then
      ⟨"Key already added",
       some "This passphrase has already been added to the repository",
       info, w⟩
    else
      match crypto.NewSalt w with
      | (.error e, w) => ⟨"Error generating a new salt", some e, info, w⟩
      | (.ok salt, w) =>
        let d := crypto.KeyFromPassphrase passphrase salt
        let wrappedKey := crypto.WrapKey d.1 masterKey
        ⟨"", none, info.AddPassphrase salt d.2 wrappedKey, w⟩

/-- addKeyGPG (`zz-keys.go:216`): wrap the master key for the recipient
with GPG and append the asymmetric entry. -/
def addKeyGPG (info : InfoFile) (masterKey : Bytes) (gpgKey : String)
    (w : World) : OpResult :=
  match keys.GPGEncrypt w masterKey gpgKey with
  | .error e => ⟨"Error encrypting the master key with GPG", some e, info, w⟩
  | .ok wrappedKey => ⟨"", none, info.AddGPGWrappedKey gpgKey wrappedKey, w⟩

/-- AddKey (`zz-keys.go:154`): empty `gpgKey` takes the passphrase path;
otherwise the recipient id is lowercased and rejected as a duplicate if
any existing entry's `GPGKey` matches case-insensitively, else the key is
wrapped for the recipient and appended. -/
def AddKey (info : InfoFile) (masterKey : Bytes) (gpgKey : String)
    (w : World) : OpResult :=
  if gpgKey = "" then
    addKeyPassphrase info masterKey w
  else
    let keyId := toLowerCodes gpgKey
    if info.Keys.any fun k => toLowerCodes k.GPGKey = keyId then
      ⟨"Key already added",
       some "This GPG key has already been added to the repository",
       info, w⟩
    else
      addKeyGPG info masterKey gpgKey w

/-- Result of `NewInfoFile`: Go's `(info *infofile.InfoFile, errMessage
string, err error)` (a `nil` info pointer is `none`), plus the world
after the call. -/
structure NewInfoFileResult where
  info : Option InfoFile
  errMessage : String
  err : Option String
  world : World

/-- NewInfoFile (`zz-keys.go:54`): create a fresh info file, generate a
master key, and add the initial unlock factor via `AddKey`. Translated
faithfully from the source: when `AddKey` fails the local `info` is set
to `nil`, and the final statement returns `info, "", nil` — it does not
return `AddKey`'s error. (`infofile.New` is modelled total, so its error
branch at `zz-keys.go:57` has no counterpart.) -/
def NewInfoFile (gpgKey : String) (w : World) : NewInfoFileResult :=
  let info := infofile.New
  match crypto.NewKey w with
  | (.error e, w) => ⟨none, "Error generating the master key", some e, w⟩
  | (.ok masterKey, w) =>
    let r := AddKey info masterKey gpgKey w
    let info : Option InfoFile := if r.err.isSome then none else some r.info
    ⟨info, "", none, r.world⟩

/-- upgradeInfoFileV1 (`zz-keys.go:104`): when the legacy salt and
confirmation hash are both populated, prompt for the passphrase, derive
the legacy master key, verify the confirmation hash in constant time,
generate a new salt, re-derive a wrapping key and hash from the same
passphrase, wrap the master key, append the new passphrase entry and
clear the legacy fields; otherwise do nothing. -/
def upgradeInfoFileV1 (info : InfoFile) (w : World) : OpResult :=
  if 0 < info.Salt.length ∧ 0 < info.ConfirmationHash.length then
    match PromptPassphrase w with
    | (.error e, w) => ⟨"Error getting passphrase", some e, info, w⟩
    | (.ok passphrase, w) =>
      let d := crypto.KeyFromPassphrase passphrase info.Salt
      if ConstantTimeCompare info.ConfirmationHash d.2 = 0 then
        ⟨"Cannot unlock the repository", some "Invalid passphrase", info, w⟩
      else
        match crypto.NewSalt w with
        | (.error e, w) => ⟨"Error generating a new salt", some e, info, w⟩
        | (.ok newSalt, w) =>
          let nd := crypto.KeyFromPassphrase passphrase newSalt
          let wrappedKey := crypto.WrapKey nd.1 d.1
          let info := info.AddPassphrase newSalt nd.2 wrappedKey
          ⟨"", none, { info with Salt := [], ConfirmationHash := [] }, w⟩
  else
    ⟨"", none, info, w⟩

/-- UpgradeInfoFile (`zz-keys.go:77`): only versions 1 and 2 can be
upgraded; version 1 first runs the 1-to-2 passphrase re-wrapping, the
2-to-3 step changes nothing, and on success the version is set to 3. -/
def UpgradeInfoFile (info : InfoFile) (w : World) : OpResult :=
  if info.Version ≠ 1 ∧ info.Version ≠ 2 then
    ⟨"Unsupported repository version",
     some "This repository has already been upgraded or is using an unsupported version",
     info, w⟩
  else
    let step :=
      if info.Version < 2 then upgradeInfoFileV1 info w
      else ⟨"", none, info, w⟩
    if step.err.isSome then step
    else ⟨"", none, { step.info with Version := 3 }, step.world⟩

/-- Result of `GetMasterKey`: the `keys`-style quadruple, the info file
after the call (the source never writes through the `*InfoFile`), and
the world after the call. -/
structure UnlockResult where
  masterKey : Bytes
  keyId : String
  errMessage : String
  err : Option String
  info : InfoFile
  world : World

/-- GetMasterKey (`zz-keys.go:235`): first try unwrapping with GPG; on
success return immediately, otherwise prompt for a passphrase once and
try unwrapping with it. -/
def GetMasterKey (info : InfoFile) (w : World) : UnlockResult :=
  let g := keys.GetMasterKeyWithGPG info w
  if g.err = none then
    ⟨g.masterKey, g.keyId, g.errMessage, g.err, info, w⟩
  else
    match PromptPassphrase w with
    | (.error e, w) => ⟨[], "", "Error getting passphrase", some e, info, w⟩
    | (.ok passphrase, w) =>
      let r := keys.GetMasterKeyWithPassphrase info passphrase
      ⟨r.masterKey, r.keyId, r.errMessage, r.err, info, w⟩

/-- Parsed JSON body of an unlock request of the sandboxed handler. The
fields are optional because the JSON properties may be absent; JavaScript
treats an absent `type` as not equal to `"passphrase"`, and an absent or
empty `passphrase` as falsy. -/
structure UnlockReqBody where
  reqType : Option String
  passphrase : Option String
deriving DecidableEq

/-- Result object of `Prvt.unlock(passphrase)` as the handler sees it:
both properties may be missing on a malformed result. -/
structure PrvtUnlockResult where
  masterKey : Option Bytes
  keyId : Option String
deriving DecidableEq

/-- The sandboxed module's capability, as exposed to the handler:
`unlock` returns the unlock result or a falsy value (`none`), and
`getIndex` builds the index object from a master key (an opaque handle,
modelled as the bytes it was built from). -/
structure WasmEnv where
  unlock : String → Option PrvtUnlockResult
  getIndex : Bytes → Bytes

/-- The worker-side stores the wasm unlock handler mutates. -/
structure WasmStores where
  masterKey : Option Bytes
  keyId : Option String
  index : Option Bytes
deriving DecidableEq

/-- Observable outcome of one run of the wasm unlock handler: the
response object (`none` is JavaScript `undefined`, a missing response),
the stores after the run, the broadcast messages sent, and how many
times `Prvt.unlock` was invoked. -/
structure HandlerOutcome where
  response : Option (String × String)
  stores : WasmStores
  broadcasts : List String
  unlockCalls : Nat
deriving DecidableEq

/-- The wasm unlock request handler (the sandboxed module's
`/api/repo/unlock` handler): validate the parsed body, call
`Prvt.unlock`, reject a malformed unlock result by throwing
(`Except.error`), store the master key, key id and index, broadcast
`unlocked`, and answer with the key id and factor type. A body that is
absent, whose `type` is not `"passphrase"`, or whose `passphrase` is
absent or empty returns `undefined` immediately. -/
def unlockHandler (env : WasmEnv) (data : Option UnlockReqBody)
    (st : WasmStores) : Except String HandlerOutcome :=
  match data with
  | none => .ok ⟨none, st, [], 0⟩
  | some d =>
    if d.reqType ≠ some "passphrase" ∨ d.passphrase = none ∨
        d.passphrase = some "" then
      .ok ⟨none, st, [], 0⟩
    else
      match env.unlock (d.passphrase.getD "") with
      | none => .error "Invalid response"
      | some r =>
        match r.masterKey, r.keyId with
        | some mk, some kid =>
          if kid = "" then .error "Invalid response"
          else
            let st := { st with
              masterKey := some mk, keyId := some kid,
              index := some (env.getIndex mk) }
            .ok ⟨some (kid, "passphrase"), st, ["unlocked"], 1⟩
        | _, _ => .error "Invalid response"

/-! ## Claim theorems -/

/-- C7: for every InfoFile whose version at the start of migration is
outside the set of 1 and 2, `UpgradeInfoFile` fails with the
UnsupportedVersion error and performs no mutation: the InfoFile and the
world are exactly as they were before the call. -/
theorem C7_upgrade_unsupported_version (info : InfoFile) (w : World)
    (h : info.Version ≠ 1 ∧ info.Version ≠ 2) :
    (UpgradeInfoFile info w).err =
      some "This repository has already been upgraded or is using an unsupported version" ∧
    (UpgradeInfoFile info w).errMessage = "Unsupported repository version" ∧
    (UpgradeInfoFile info w).info = info ∧
    (UpgradeInfoFile info w).world = w := by
  unfold UpgradeInfoFile
  rw [if_pos h]
  exact ⟨rfl, rfl, rfl, rfl⟩

/-- Concrete version-0 InfoFile for the C7 witness. -/
def infoC7 : InfoFile := ⟨0, [], [], [.asymmetricEntry "abc" [1]]⟩

/-- Concrete world for the C7 witness. -/
def worldC7 : World := ⟨[.ok "pw"], [[5]], [[7]], fun _ => none, fun _ _ => none⟩

/-- C7 witness: the theorem applied at version 0. -/
theorem C7_witness :
    (UpgradeInfoFile infoC7 worldC7).err =
      some "This repository has already been upgraded or is using an unsupported version" ∧
    (UpgradeInfoFile infoC7 worldC7).errMessage = "Unsupported repository version" ∧
    (UpgradeInfoFile infoC7 worldC7).info = infoC7 ∧
    (UpgradeInfoFile infoC7 worldC7).world = worldC7 :=
  C7_upgrade_unsupported_version infoC7 worldC7 (by decide)

/-- C8: for every version-1 InfoFile whose legacy salt and legacy
confirmation hash are not populated, migration succeeds as a no-op
rotation: the version is bumped to the current version 3, no passphrase
rewrapping happens (the world — prompt and generator queues — is
untouched) and the Keys list is unchanged. -/
theorem C8_upgrade_v1_without_legacy_fields (info : InfoFile) (w : World)
    (hv : info.Version = 1) (hsalt : info.Salt = [])
    (_hhash : info.ConfirmationHash = []) :
    (UpgradeInfoFile info w).err = none ∧
    (UpgradeInfoFile info w).info.Version = 3 ∧
    (UpgradeInfoFile info w).info.Keys = info.Keys ∧
    (UpgradeInfoFile info w).world = w := by
  have h1 : ¬(info.Version ≠ 1 ∧ info.Version ≠ 2) := fun hc => hc.1 hv
  have h2 : info.Version < 2 := by rw [hv]; norm_num
  have h3 : ¬(0 < info.Salt.length ∧ 0 < info.ConfirmationHash.length) := by
    rw [hsalt]; simp
  unfold UpgradeInfoFile upgradeInfoFileV1
  rw [if_neg h1, if_pos h2, if_neg h3]
  exact ⟨rfl, rfl, rfl, rfl⟩

/-- Concrete version-1 InfoFile with no legacy fields for the C8 witness. -/
def infoC8 : InfoFile := ⟨1, [], [], [.asymmetricEntry "abc" [1]]⟩

/-- Concrete world for the C8 witness. -/
def worldC8 : World := ⟨[.ok "pw"], [[5]], [], fun _ => none, fun _ _ => none⟩

/-- C8 witness: the theorem applied at a version-1 InfoFile holding only
an asymmetric entry. -/
theorem C8_witness :
    (UpgradeInfoFile infoC8 worldC8).err = none ∧
    (UpgradeInfoFile infoC8 worldC8).info.Version = 3 ∧
    (UpgradeInfoFile infoC8 worldC8).info.Keys = infoC8.Keys ∧
    (UpgradeInfoFile infoC8 worldC8).world = worldC8 :=
  C8_upgrade_v1_without_legacy_fields infoC8 worldC8 rfl rfl rfl

/-- Concrete version-3 InfoFile for the C1 counterexample and witness. -/
def infoC1 : InfoFile := ⟨3, [], [], [.asymmetricEntry "abc" [1, 2]]⟩

/-- Concrete world for the C1 counterexample and witness. -/
def worldC1 : World := ⟨[.ok "pw"], [[5]], [[7]], fun _ => none, fun _ _ => none⟩

/-- C1 counterexample: on an InfoFile already at the terminal version 3,
`UpgradeInfoFile` returns a non-nil error — it is not the error-free
no-op the claim states (versions outside 1 and 2 are rejected). -/
theorem C1_counterexample :
    infoC1.Version = 3 ∧ (UpgradeInfoFile infoC1 worldC1).err ≠ none := by
  refine ⟨rfl, ?_⟩
  unfold UpgradeInfoFile infoC1
  decide

/-- C1 amended: invoking `UpgradeInfoFile` on an InfoFile already at the
terminal version 3 fails with the UnsupportedVersion error instead of
succeeding; it is idempotent in the remaining sense — called twice in
succession it produces identical output both times and leaves the
InfoFile (and the world) unchanged. -/
theorem C1_upgrade_at_v3_errors_without_mutation (info : InfoFile) (w : World)
    (h : info.Version = 3) :
    (UpgradeInfoFile info w).err =
      some "This repository has already been upgraded or is using an unsupported version" ∧
    (UpgradeInfoFile info w).info = info ∧
    (UpgradeInfoFile info w).world = w ∧
    UpgradeInfoFile (UpgradeInfoFile info w).info (UpgradeInfoFile info w).world
      = UpgradeInfoFile info w := by
  have hne : info.Version ≠ 1 ∧ info.Version ≠ 2 := by rw [h]; exact ⟨by decide, by decide⟩
  unfold UpgradeInfoFile
  rw [if_pos hne]
  exact ⟨rfl, rfl, rfl, by rw [if_pos hne]⟩

/-- C1 witness: the amended theorem applied at a concrete version-3
InfoFile. -/
theorem C1_witness :
    (UpgradeInfoFile infoC1 worldC1).err =
      some "This repository has already been upgraded or is using an unsupported version" ∧
    (UpgradeInfoFile infoC1 worldC1).info = infoC1 ∧
    (UpgradeInfoFile infoC1 worldC1).world = worldC1 ∧
    UpgradeInfoFile (UpgradeInfoFile infoC1 worldC1).info
        (UpgradeInfoFile infoC1 worldC1).world
      = UpgradeInfoFile infoC1 worldC1 :=
  C1_upgrade_at_v3_errors_without_mutation infoC1 worldC1 rfl

/-- Concrete world for the C2 code-bug theorem: the passphrase prompt for
the initial factor is cancelled, so `AddKey` fails. -/
def worldC2 : World :=
  ⟨[.error "prompt cancelled"], [], [[7]], fun _ => none, fun _ _ => none⟩

/-- C2 (code bug): when adding the initial unlock factor fails — here the
passphrase prompt is cancelled — `AddKey` returns a non-nil error, yet
`NewInfoFile` returns a nil InfoFile together with a nil error and an
empty error message: the failure is not propagated to the caller, which
sees success with no info file (`zz-keys.go:68` stores the error,
`zz-keys.go:73` returns `info, "", nil`). -/
theorem C2_newinfofile_drops_addkey_error :
    (AddKey infofile.New [7] "" { worldC2 with keyQueue := [] }).err ≠ none ∧
    (NewInfoFile "" worldC2).info = none ∧
    (NewInfoFile "" worldC2).errMessage = "" ∧
    (NewInfoFile "" worldC2).err = none := by
  decide

/-- C10: a sandboxed unlock request whose JSON body is absent, has a type
other than passphrase, or has a missing or empty passphrase field makes
the wasm unlock handler return no response (`undefined`) without calling
`Prvt.unlock`, mutating the stores, or broadcasting any message. -/
theorem C10_handler_ignores_invalid_body (env : WasmEnv)
    (data : Option UnlockReqBody) (st : WasmStores)
    (h : data = none ∨ ∃ d, data = some d ∧
      (d.reqType ≠ some "passphrase" ∨ d.passphrase = none ∨
        d.passphrase = some "")) :
    unlockHandler env data st = .ok ⟨none, st, [], 0⟩ := by
  rcases h with rfl | ⟨d, rfl, hd⟩
  · rfl
  · simp only [unlockHandler]
    rw [if_pos hd]

/-- Concrete environment for the C10 witness. -/
def envC10 : WasmEnv := ⟨fun _ => some ⟨some [1], some "k"⟩, fun b => b⟩

/-- Concrete stores for the C10 witness. -/
def stC10 : WasmStores := ⟨none, none, none⟩

/-- C10 witness: the theorem applied at a body whose type is not
passphrase. -/
theorem C10_witness :
    unlockHandler envC10 (some ⟨some "gpg", some "x"⟩) stC10 =
      .ok ⟨none, stC10, [], 0⟩ :=
  C10_handler_ignores_invalid_body envC10 (some ⟨some "gpg", some "x"⟩) stC10
    (Or.inr ⟨⟨some "gpg", some "x"⟩, rfl, Or.inl (by decide)⟩)

/-- C5: for every InfoFile and every passphrase that already unlocks it,
calling add-factor (`AddKey` with an empty gpgKey) while the prompt
supplies that passphrase fails with the DuplicateFactor error and leaves
the length of `info.Keys` unchanged. -/
theorem C5_duplicate_passphrase_rejected (info : InfoFile)
    (masterKey : Bytes) (p : String) (w : World)
    (qs : List (Except String String))
    (hq : w.promptQueue = .ok p :: qs)
    (hunlock : (keys.GetMasterKeyWithPassphrase info p).err = none) :
    (AddKey info masterKey "" w).err =
      some "This passphrase has already been added to the repository" ∧
    (AddKey info masterKey "" w).info.Keys.length = info.Keys.length := by
  unfold AddKey addKeyPassphrase PromptPassphrase
  rw [if_pos rfl, hq]
  simp only []
  rw [if_pos hunlock]
  exact ⟨rfl, rfl⟩

/-- Concrete salt for the C5 witness. -/
def saltC5 : Bytes := [3]

/-- Concrete InfoFile for the C5 witness: one passphrase entry built for
the passphrase `pw`, wrapping the master key `[7]`. -/
def infoC5 : InfoFile :=
  ⟨3, [], [],
   [.passphraseEntry saltC5 (crypto.KeyFromPassphrase "pw" saltC5).2
      (crypto.WrapKey (crypto.KeyFromPassphrase "pw" saltC5).1 [7])]⟩

/-- Concrete world for the C5 witness: the prompt supplies `pw` again. -/
def worldC5 : World := ⟨[.ok "pw"], [[4]], [], fun _ => none, fun _ _ => none⟩

/-- C5 witness: the theorem applied where the prompted passphrase already
unlocks the only entry. -/
theorem C5_witness :
    (AddKey infoC5 [9] "" worldC5).err =
      some "This passphrase has already been added to the repository" ∧
    (AddKey infoC5 [9] "" worldC5).info.Keys.length = infoC5.Keys.length :=
  C5_duplicate_passphrase_rejected infoC5 [9] "pw" worldC5 [] rfl (by decide)

/-- C6: over ASCII recipient ids (where the modelled case folding
coincides with Go's Unicode-aware `strings.ToLower`), for every InfoFile
and recipient id equal up to ASCII case to the GPG key id of an existing
entry, `AddKey` with that gpgKey fails with the DuplicateFactor error
and leaves `info.Keys` unchanged; a recipient id not already present
case-insensitively, for which the asymmetric wrap succeeds, is wrapped
and appended as a new asymmetric entry. -/
theorem C6_gpg_duplicate_case_insensitive (info : InfoFile)
    (masterKey : Bytes) (gpgKey : String) (w : World) (hg : gpgKey ≠ "")
    (_hga : isAsciiString gpgKey)
    (_hka : ∀ k ∈ info.Keys, isAsciiString k.GPGKey) :
    ((∃ k ∈ info.Keys, toLowerCodes k.GPGKey = toLowerCodes gpgKey) →
      (AddKey info masterKey gpgKey w).err =
        some "This GPG key has already been added to the repository" ∧
      (AddKey info masterKey gpgKey w).info = info) ∧
    (∀ wrapped, (∀ k ∈ info.Keys, toLowerCodes k.GPGKey ≠ toLowerCodes gpgKey) →
      w.gpgEncrypt masterKey gpgKey = some wrapped →
      (AddKey info masterKey gpgKey w).err = none ∧
      (AddKey info masterKey gpgKey w).info.Keys =
        info.Keys ++ [.asymmetricEntry gpgKey wrapped]) := by
  constructor
  · intro hdup
    have hany : (info.Keys.any fun k =>
        toLowerCodes k.GPGKey = toLowerCodes gpgKey) = true := by
      rcases hdup with ⟨k, hk, hkey⟩
      exact List.any_eq_true.mpr ⟨k, hk, decide_eq_true hkey⟩
    unfold AddKey
    rw [if_neg hg, if_pos hany]
    exact ⟨rfl, rfl⟩
  · intro wrapped hall henc
    have hany : ¬((info.Keys.any fun k =>
        toLowerCodes k.GPGKey = toLowerCodes gpgKey) = true) := by
      intro hc
      rcases List.any_eq_true.mp hc with ⟨k, hk, hkey⟩
      exact hall k hk (of_decide_eq_true hkey)
    unfold AddKey addKeyGPG keys.GPGEncrypt
    rw [if_neg hg, if_neg hany, henc]
    exact ⟨rfl, rfl⟩

/-- Concrete InfoFile for the C6 witness: one asymmetric entry with
recipient id `ABC`. -/
def infoC6 : InfoFile := ⟨3, [], [], [.asymmetricEntry "ABC" [1]]⟩

/-- Concrete world for the C6 witness: the asymmetric wrap of any payload
for any recipient yields `[11]`. -/
def worldC6 : World := ⟨[], [], [], fun _ => none, fun _ _ => some [11]⟩

/-- C6 witness: adding `abc` over an existing `ABC` entry is rejected as a
duplicate, while `def` is wrapped and appended. -/
theorem C6_witness :
    ((AddKey infoC6 [9] "abc" worldC6).err =
        some "This GPG key has already been added to the repository" ∧
      (AddKey infoC6 [9] "abc" worldC6).info = infoC6) ∧
    ((AddKey infoC6 [9] "def" worldC6).err = none ∧
      (AddKey infoC6 [9] "def" worldC6).info.Keys =
        infoC6.Keys ++ [.asymmetricEntry "def" [11]]) :=
  ⟨(C6_gpg_duplicate_case_insensitive infoC6 [9] "abc" worldC6 (by decide)
        (by decide) (by decide)).1
      ⟨.asymmetricEntry "ABC" [1], by decide, by decide⟩,
   (C6_gpg_duplicate_case_insensitive infoC6 [9] "def" worldC6 (by decide)
        (by decide) (by decide)).2
      [11] (by decide) rfl⟩

/-- C3: for every version-1 InfoFile with legacy salt and confirmation
hash populated, a successful migration with the correct passphrase
clears both legacy fields, appends exactly one new PassphraseEntry whose
salt is freshly generated (different from the legacy salt), preserves
every pre-existing entry in the Keys list verbatim, and the new entry
still unwraps to the original master key (in version 1 the master key is
the key derived from the passphrase and the legacy salt). -/
theorem C3_migration_rotates_legacy_passphrase (info : InfoFile) (w : World)
    (p : String) (newSalt : Bytes) (qs : List (Except String String))
    (ss : List Bytes)
    (hv : info.Version = 1)
    (hsalt : info.Salt ≠ []) (hhash : info.ConfirmationHash ≠ [])
    (hq : w.promptQueue = .ok p :: qs)
    (hcorrect : info.ConfirmationHash = (crypto.KeyFromPassphrase p info.Salt).2)
    (hs : w.saltQueue = newSalt :: ss)
    (hfresh : newSalt ≠ info.Salt) :
    (UpgradeInfoFile info w).err = none ∧
    (UpgradeInfoFile info w).info.Salt = [] ∧
    (UpgradeInfoFile info w).info.ConfirmationHash = [] ∧
    ∃ s h wk, (UpgradeInfoFile info w).info.Keys =
        info.Keys ++ [.passphraseEntry s h wk] ∧
      s ≠ info.Salt ∧
      crypto.UnwrapKey (crypto.KeyFromPassphrase p s).1 wk =
        some (crypto.KeyFromPassphrase p info.Salt).1 := by
  have h1 : ¬(info.Version ≠ 1 ∧ info.Version ≠ 2) := fun hc => hc.1 hv
  have h2 : info.Version < 2 := by rw [hv]; norm_num
  have h3 : 0 < info.Salt.length ∧ 0 < info.ConfirmationHash.length :=
    ⟨List.length_pos.mpr hsalt, List.length_pos.mpr hhash⟩
  have h4 : ¬(ConstantTimeCompare info.ConfirmationHash
      (crypto.KeyFromPassphrase p info.Salt).2 = 0) := by
    rw [hcorrect, ConstantTimeCompare, if_pos rfl]
    norm_num
  unfold UpgradeInfoFile upgradeInfoFileV1 PromptPassphrase crypto.NewSalt
  rw [if_neg h1, if_pos h2, if_pos h3, hq]
  simp only []
  rw [if_neg h4]
  simp only [hs]
  refine ⟨rfl, rfl, rfl, newSalt,
    (crypto.KeyFromPassphrase p newSalt).2,
    crypto.WrapKey (crypto.KeyFromPassphrase p newSalt).1
      (crypto.KeyFromPassphrase p info.Salt).1,
    rfl, hfresh, crypto.unwrap_wrap _ _⟩

/-- Concrete legacy salt for the C3 witness. -/
def saltC3 : Bytes := [1]

/-- Concrete version-1 InfoFile for the C3 witness: legacy fields built
for the passphrase `pw`, plus one pre-existing asymmetric entry. -/
def infoC3 : InfoFile :=
  ⟨1, saltC3, (crypto.KeyFromPassphrase "pw" saltC3).2,
   [.asymmetricEntry "A" [9]]⟩

/-- Concrete world for the C3 witness: the prompt supplies the correct
passphrase and the salt generator yields `[2]`. -/
def worldC3 : World := ⟨[.ok "pw"], [[2]], [], fun _ => none, fun _ _ => none⟩

/-- C3 witness: the theorem applied at the concrete migration. -/
theorem C3_witness :
    (UpgradeInfoFile infoC3 worldC3).err = none ∧
    (UpgradeInfoFile infoC3 worldC3).info.Salt = [] ∧
    (UpgradeInfoFile infoC3 worldC3).info.ConfirmationHash = [] ∧
    ∃ s h wk, (UpgradeInfoFile infoC3 worldC3).info.Keys =
        infoC3.Keys ++ [.passphraseEntry s h wk] ∧
      s ≠ infoC3.Salt ∧
      crypto.UnwrapKey (crypto.KeyFromPassphrase "pw" s).1 wk =
        some (crypto.KeyFromPassphrase "pw" infoC3.Salt).1 :=
  C3_migration_rotates_legacy_passphrase infoC3 worldC3 "pw" [2] [] []
    rfl (by decide) (by decide) rfl rfl rfl (by decide)

/-- `AddKey` never changes the version field: every branch either leaves
the InfoFile untouched or appends an entry. -/
theorem addKey_version_unchanged (info : InfoFile) (masterKey : Bytes)
    (gpgKey : String) (w : World) :
    (AddKey info masterKey gpgKey w).info.Version = info.Version := by
  simp only [AddKey, addKeyPassphrase, addKeyGPG, keys.GPGEncrypt]
  repeat' split
  all_goals simp [InfoFile.AddPassphrase, InfoFile.AddGPGWrappedKey]

/-- The version-1 migration step never changes the version field itself:
it only rewrites the legacy fields and the key list (the caller bumps the
version). -/
theorem upgradeInfoFileV1_version_unchanged (info : InfoFile) (w : World) :
    (upgradeInfoFileV1 info w).info.Version = info.Version := by
  simp only [upgradeInfoFileV1, PromptPassphrase, crypto.NewSalt]
  repeat' split
  all_goals simp [InfoFile.AddPassphrase]

/-- `GetMasterKey` never writes through its InfoFile argument. -/
theorem getMasterKey_info_unchanged (info : InfoFile) (w : World) :
    (GetMasterKey info w).info = info := by
  by_cases hg : (keys.GetMasterKeyWithGPG info w).err = none
  · simp only [GetMasterKey]
    rw [if_pos hg]
  · simp only [GetMasterKey]
    rw [if_neg hg]
    unfold PromptPassphrase
    repeat' split
    all_goals rfl

/-- C9: the version field is monotonically non-decreasing under every
public operation — `AddKey`, `UpgradeInfoFile` and `GetMasterKey` each
either leave `info.Version` unchanged or increase it, never lower it. -/
theorem C9_version_monotone (info : InfoFile) (w : World)
    (masterKey : Bytes) (gpgKey : String) :
    info.Version ≤ (AddKey info masterKey gpgKey w).info.Version ∧
    info.Version ≤ (UpgradeInfoFile info w).info.Version ∧
    info.Version ≤ (GetMasterKey info w).info.Version := by
  refine ⟨le_of_eq (addKey_version_unchanged info masterKey gpgKey w).symm,
    ?_, le_of_eq (congrArg InfoFile.Version
      (getMasterKey_info_unchanged info w)).symm⟩
  by_cases hcond : info.Version ≠ 1 ∧ info.Version ≠ 2
  · unfold UpgradeInfoFile
    rw [if_pos hcond]
  · have h12 : info.Version = 1 ∨ info.Version = 2 := by
      by_contra hc
      push_neg at hc
      exact hcond ⟨hc.1, hc.2⟩
    have key : ∀ r : OpResult, r.info.Version = info.Version →
        info.Version ≤
          (if r.err.isSome then r
           else ⟨"", none, { r.info with Version := 3 }, r.world⟩).info.Version := by
      intro r hr
      split
      · rw [hr]
      · show info.Version ≤ (3 : Int)
        rcases h12 with h | h <;> rw [h] <;> norm_num
    unfold UpgradeInfoFile
    rw [if_neg hcond]
    by_cases hlt : info.Version < 2
    · rw [if_pos hlt]
      exact key _ (upgradeInfoFileV1_version_unchanged info w)
    · rw [if_neg hlt]
      exact key _ rfl

/-- Trying the asymmetric entries hits the first entry whose wrapped blob
the locally available material can reverse: entries before it (failing
asymmetric or skipped passphrase entries) do not affect the result. -/
theorem tryAsymmetricEntries_first_success (w : World)
    (pre post : List KeyEntry) (rid : String) (wrapped mk : Bytes)
    (hpre : ∀ r b, KeyEntry.asymmetricEntry r b ∈ pre → w.gpgDecrypt b = none)
    (hdec : w.gpgDecrypt wrapped = some mk) :
    keys.tryAsymmetricEntries w
        (pre ++ KeyEntry.asymmetricEntry rid wrapped :: post) =
      ⟨mk, rid, "", none⟩ := by
  induction pre with
  | nil =>
    simp only [List.nil_append]
    unfold keys.tryAsymmetricEntries
    rw [hdec]
  | cons e rest ih =>
    cases e with
    | passphraseEntry s c k =>
      simp only [List.cons_append]
      unfold keys.tryAsymmetricEntries
      exact ih fun r b hm => hpre r b (List.mem_cons_of_mem _ hm)
    | asymmetricEntry r b =>
      have hb : w.gpgDecrypt b = none := hpre r b (List.mem_cons_self _ _)
      simp only [List.cons_append]
      unfold keys.tryAsymmetricEntries
      rw [hb]
      exact ih fun r2 b2 hm => hpre r2 b2 (List.mem_cons_of_mem _ hm)

/-- When no asymmetric entry can be reversed by the locally available
material, trying the asymmetric entries fails. -/
theorem tryAsymmetricEntries_all_fail (w : World) (l : List KeyEntry)
    (h : ∀ r b, KeyEntry.asymmetricEntry r b ∈ l → w.gpgDecrypt b = none) :
    (keys.tryAsymmetricEntries w l).err ≠ none := by
  induction l with
  | nil =>
    unfold keys.tryAsymmetricEntries
    simp
  | cons e rest ih =>
    cases e with
    | passphraseEntry s c k =>
      unfold keys.tryAsymmetricEntries
      exact ih fun r b hm => h r b (List.mem_cons_of_mem _ hm)
    | asymmetricEntry r b =>
      have hb : w.gpgDecrypt b = none := h r b (List.mem_cons_self _ _)
      unfold keys.tryAsymmetricEntries
      rw [hb]
      exact ih fun r2 b2 hm => h r2 b2 (List.mem_cons_of_mem _ hm)

/-- C4: unlock tries every asymmetric entry first without any interactive
input — when some asymmetric entry unwraps and every asymmetric entry
before it fails, `GetMasterKey` returns that entry's master key and
recipient id with the world (prompt included) untouched; and only when no
asymmetric entry succeeds does it obtain a passphrase from the Factor
Source, consuming exactly one prompt per call. -/
theorem C4_asymmetric_first_then_one_prompt (info : InfoFile) (w : World) :
    (∀ pre post rid wrapped mk,
      info.Keys = pre ++ KeyEntry.asymmetricEntry rid wrapped :: post →
      (∀ r b, KeyEntry.asymmetricEntry r b ∈ pre → w.gpgDecrypt b = none) →
      w.gpgDecrypt wrapped = some mk →
      GetMasterKey info w = ⟨mk, rid, "", none, info, w⟩) ∧
    (∀ q qs,
      (∀ r b, KeyEntry.asymmetricEntry r b ∈ info.Keys → w.gpgDecrypt b = none) →
      w.promptQueue = q :: qs →
      (GetMasterKey info w).world.promptQueue = qs) := by
  constructor
  · intro pre post rid wrapped mk hkeys hpre hdec
    simp only [GetMasterKey, keys.GetMasterKeyWithGPG]
    rw [hkeys,
      tryAsymmetricEntries_first_success w pre post rid wrapped mk hpre hdec]
    rfl
  · intro q qs hall hq
    have hfail := tryAsymmetricEntries_all_fail w info.Keys hall
    simp only [GetMasterKey, keys.GetMasterKeyWithGPG]
    rw [if_neg hfail]
    unfold PromptPassphrase
    rw [hq]
    cases q <;> rfl

/-- Concrete InfoFile for the C4 witness: a passphrase entry, a failing
asymmetric entry, then a succeeding asymmetric entry. -/
def infoC4 : InfoFile :=
  ⟨3, [], [],
   [.passphraseEntry [1] [2] [3], .asymmetricEntry "K1" [10],
    .asymmetricEntry "K2" [20]]⟩

/-- Concrete world for the C4 witness: only the blob `[20]` can be
reversed locally. -/
def worldC4 : World :=
  ⟨[.ok "pw"], [], [], fun b => if b = [20] then some [99] else none,
   fun _ _ => none⟩

/-- Concrete world for the C4 witness's passphrase branch: no asymmetric
material is available. -/
def worldC4b : World := ⟨[.ok "pw"], [], [], fun _ => none, fun _ _ => none⟩

/-- C4 witness: the first succeeding asymmetric entry wins with no prompt
consumed, and with no asymmetric material exactly one prompt is
consumed. -/
theorem C4_witness :
    GetMasterKey infoC4 worldC4 = ⟨[99], "K2", "", none, infoC4, worldC4⟩ ∧
    (GetMasterKey infoC4 worldC4b).world.promptQueue = [] :=
  ⟨(C4_asymmetric_first_then_one_prompt infoC4 worldC4).1
      [.passphraseEntry [1] [2] [3], .asymmetricEntry "K1" [10]] [] "K2" [20] [99]
      rfl
      (by
        intro r b hm
        simp only [List.mem_cons, List.not_mem_nil, or_false] at hm
        rcases hm with hm | hm
        · exact absurd hm (by simp)
        · rcases KeyEntry.asymmetricEntry.injEq .. ▸ hm with ⟨rfl, rfl⟩
          rfl)
      rfl,
   (C4_asymmetric_first_then_one_prompt infoC4 worldC4b).2 (.ok "pw") []
      (fun r b hm => rfl) rfl⟩
